import Mathlib

/-!
Verification development for the FOAM G-code generator
(`FOAM_GcodeGenerator.py`).

The embedding follows the source closely:

* Coordinates are exact rationals.  The source rounds each Rhino point
  coordinate to three decimals at ingestion and then works with plain
  arithmetic on those values; we take the rounded rational coordinates as
  the input and model the arithmetic exactly (idealizing IEEE floats as
  exact rational/real arithmetic).
* The only irrational quantities are the radial bound `sqrt(x*x + y*y)`
  in `in_bounds_delta` and the Euclidean `DistanceTo` used for extrusion.
  The radial comparison is translated by the exact equivalence
  `sqrt s > radius ↔ radius < 0 ∨ radius^2 < s` (for `s ≥ 0`), proved
  below against `Real.sqrt`, which keeps the bounds checker decidable.
  Point-to-point distances are modelled with `Real.sqrt` directly.
* Instruction lines are modelled as a structured datatype `GLine`, one
  constructor per distinct line shape emitted by the source; the textual
  `f"..."` serialization is dropped, fields keep their numeric values
  (the source formats the extrusion value with four decimals, all other
  numbers with Python's default decimal representation).
-/

/-- A 3D point with exact rational coordinates (the source rounds Rhino
point coordinates to 3 decimals in `extract_points`; we take the rounded
values as given). -/
structure Pt where
  x : ℚ
  y : ℚ
  z : ℚ
  deriving DecidableEq, Repr

/-- Translation of `in_bounds_cart(x, y, z, bx, by, bz)` (source lines
42-50): six independent half-space checks, one reason string appended per
violated check, valid iff the reason list is empty. -/
def in_bounds_cart (x yv z bx bv bz : ℚ) : Bool × List String :=
  let reasons : List String :=
    (if x < 0 then ["X<0"] else []) ++
    (if yv < 0 then ["Y<0"] else []) ++
    (if z < 0 then ["Z<0"] else []) ++
    (if x > bx then ["X>BedX"] else []) ++
    (if yv > bv then ["Y>BedY"] else []) ++
    (if z > bz then ["Z>BedZ"] else [])
  (reasons.isEmpty, reasons)

/-- Translation of the comparison `sqrt(x*x + y*y) > radius` used by
`in_bounds_delta` (source line 54-55).  For a nonnegative argument `s`
we have `sqrt s > radius ↔ radius < 0 ∨ radius^2 < s`; the right-hand
side stays in exact rational arithmetic, so the bounds checker remains
decidable.  `sqrtGtB_eq_true_iff` below proves the translation exact
with respect to `Real.sqrt`. -/
def sqrtGtB (s radius : ℚ) : Bool :=
  decide (radius < 0 ∨ radius * radius < s)

/-- Translation of `in_bounds_delta(x, y, z, radius, bz)` (source lines
52-58): radial check against the bed radius plus the Z range, one reason
string per violated check, valid iff the reason list is empty. -/
def in_bounds_delta (x yv z radius bz : ℚ) : Bool × List String :=
  let reasons : List String :=
    (if sqrtGtB (x * x + yv * yv) radius then ["r>BedRadius"] else []) ++
    (if z < 0 then ["Z<0"] else []) ++
    (if z > bz then ["Z>BedZ"] else [])
  (reasons.isEmpty, reasons)

/-- The segment midpoint computed at source line 147. -/
def midPt (a b : Pt) : Pt :=
  ⟨(a.x + b.x) / 2, (a.y + b.y) / 2, (a.z + b.z) / 2⟩

/-- The per-point bounds dispatch of source lines 135-138: `"Delta"`
selects the cylindrical checker, every other printer-type string the
cartesian one. -/
def point_check (ptype : String) (bx bv bz br : ℚ) (p : Pt) : Bool × List String :=
  if ptype = "Delta" then in_bounds_delta p.x p.y p.z br bz
  else in_bounds_cart p.x p.y p.z bx bv bz

/-- The per-segment validity test of source lines 145-159: for `"Delta"`
both endpoints and the midpoint are checked; otherwise (cartesian) only
the two endpoints are checked.  A segment lands in `BadSegs` exactly when
this returns `false`. -/
def segment_ok (ptype : String) (bx bv bz br : ℚ) (a b : Pt) : Bool :=
  let mid := midPt a b
  if ptype = "Delta" then
    (in_bounds_delta a.x a.y a.z br bz).1 && (in_bounds_delta b.x b.y b.z br bz).1 &&
      (in_bounds_delta mid.x mid.y mid.z br bz).1
  else
    (in_bounds_cart a.x a.y a.z bx bv bz).1 && (in_bounds_cart b.x b.y b.z bx bv bz).1

theorem sqrtGtB_eq_true_iff (x yv radius : ℚ) :
    sqrtGtB (x * x + yv * yv) radius = true ↔
      (radius : ℝ) < Real.sqrt ((x : ℝ) ^ 2 + (yv : ℝ) ^ 2) := by
  rw [sqrtGtB, decide_eq_true_iff]
  constructor
  · rintro (hneg | hlt)
    · have h0 : (radius : ℝ) < 0 := by exact_mod_cast hneg
      exact lt_of_lt_of_le h0 (Real.sqrt_nonneg _)
    · apply Real.lt_sqrt_of_sq_lt
      have h2 : ((radius * radius : ℚ) : ℝ) < ((x * x + yv * yv : ℚ) : ℝ) := by
        exact_mod_cast hlt
      push_cast at h2
      nlinarith [h2]
  · intro h
    by_cases hr : radius < 0
    · exact Or.inl hr
    · refine Or.inr ?_
      have h0 : (0 : ℝ) ≤ (radius : ℝ) := by
        exact_mod_cast not_lt.mp hr
      have hsq := (Real.lt_sqrt h0).mp h
      have h2 : ((radius * radius : ℚ) : ℝ) < ((x * x + yv * yv : ℚ) : ℝ) := by
        push_cast
        nlinarith [hsq]
      exact_mod_cast h2

theorem in_bounds_cart_fst_iff (x yv z bx bv bz : ℚ) :
    (in_bounds_cart x yv z bx bv bz).1 = true ↔
      (0 ≤ x ∧ x ≤ bx ∧ 0 ≤ yv ∧ yv ≤ bv ∧ 0 ≤ z ∧ z ≤ bz) := by
  simp only [in_bounds_cart, List.isEmpty_iff, List.append_eq_nil,
    ite_eq_right_iff, reduceCtorEq, imp_false, not_lt]
  tauto

theorem in_bounds_delta_fst_iff_rat (x yv z radius bz : ℚ) :
    (in_bounds_delta x yv z radius bz).1 = true ↔
      (0 ≤ radius ∧ x * x + yv * yv ≤ radius * radius ∧ 0 ≤ z ∧ z ≤ bz) := by
  simp only [in_bounds_delta, List.isEmpty_iff, List.append_eq_nil,
    ite_eq_right_iff, reduceCtorEq, imp_false, not_lt, sqrtGtB,
    decide_eq_true_iff, not_or]
  tauto

theorem in_bounds_delta_fst_iff (x yv z radius bz : ℚ) :
    (in_bounds_delta x yv z radius bz).1 = true ↔
      (Real.sqrt ((x : ℝ) ^ 2 + (yv : ℝ) ^ 2) ≤ (radius : ℝ) ∧ 0 ≤ z ∧ z ≤ bz) := by
  have hs := sqrtGtB_eq_true_iff x yv radius
  rw [in_bounds_delta_fst_iff_rat]
  constructor
  · rintro ⟨hr, hrad, hz0, hz1⟩
    refine ⟨?_, hz0, hz1⟩
    rw [Real.sqrt_le_iff]
    refine ⟨by exact_mod_cast hr, ?_⟩
    have : ((x * x + yv * yv : ℚ) : ℝ) ≤ ((radius * radius : ℚ) : ℝ) := by
      exact_mod_cast hrad
    push_cast at this
    nlinarith [this]
  · rintro ⟨hle, hz0, hz1⟩
    rw [Real.sqrt_le_iff] at hle
    obtain ⟨h0, hle2⟩ := hle
    refine ⟨by exact_mod_cast h0, ?_, hz0, hz1⟩
    have : ((x * x + yv * yv : ℚ) : ℝ) ≤ ((radius * radius : ℚ) : ℝ) := by
      push_cast
      nlinarith [hle2]
    exact_mod_cast this

/-- Convexity of the cartesian envelope: if both endpoints pass
`in_bounds_cart` then so does the segment midpoint. -/
theorem in_bounds_cart_mid (bx bv bz : ℚ) (a b : Pt)
    (ha : (in_bounds_cart a.x a.y a.z bx bv bz).1 = true)
    (hb : (in_bounds_cart b.x b.y b.z bx bv bz).1 = true) :
    (in_bounds_cart (midPt a b).x (midPt a b).y (midPt a b).z bx bv bz).1 = true := by
  rw [in_bounds_cart_fst_iff] at ha hb ⊢
  obtain ⟨h1, h2, h3, h4, h5, h6⟩ := ha
  obtain ⟨g1, g2, g3, g4, g5, g6⟩ := hb
  simp only [midPt]
  refine ⟨by linarith, by linarith, by linarith, by linarith, by linarith, by linarith⟩

/-- Convexity of the cylindrical envelope: if both endpoints pass
`in_bounds_delta` then so does the segment midpoint. -/
theorem in_bounds_delta_mid (radius bz : ℚ) (a b : Pt)
    (ha : (in_bounds_delta a.x a.y a.z radius bz).1 = true)
    (hb : (in_bounds_delta b.x b.y b.z radius bz).1 = true) :
    (in_bounds_delta (midPt a b).x (midPt a b).y (midPt a b).z radius bz).1 = true := by
  rw [in_bounds_delta_fst_iff_rat] at ha hb ⊢
  obtain ⟨h0, h1, h2, h3⟩ := ha
  obtain ⟨g0, g1, g2, g3⟩ := hb
  simp only [midPt]
  refine ⟨h0, ?_, by linarith, by linarith⟩
  nlinarith [sq_nonneg (a.x - b.x), sq_nonneg (a.y - b.y)]

theorem count_ite_sing (c : Prop) [Decidable c] (s t : String) :
    ((if c then [s] else []) : List String).count t = if c ∧ t = s then 1 else 0 := by
  split_ifs with h1 h2 <;> simp_all [List.count_cons, List.count_nil]

theorem length_ite_sing (c : Prop) [Decidable c] (s : String) :
    ((if c then [s] else []) : List String).length = if c then 1 else 0 := by
  split_ifs <;> rfl

/-- C1: a segment is reported valid iff both endpoints are valid and, for
the rectangular (non-`"Delta"`) model only, the midpoint is also valid;
for the cylindrical (`"Delta"`) model the result is equivalent to checking
only the two endpoints.  Note the source applies the explicit midpoint
conjunct in the `"Delta"` branch and not in the cartesian one (the mirror
image of the spec's phrasing), but both envelopes are convex, so either
way the midpoint conjunct is redundant and the stated equivalence holds. -/
theorem c1_segment_validity (ptype : String) (bx bv bz br : ℚ) (a b : Pt) :
    segment_ok ptype bx bv bz br a b = true ↔
      ((point_check ptype bx bv bz br a).1 = true ∧
       (point_check ptype bx bv bz br b).1 = true ∧
       (ptype ≠ "Delta" →
         (point_check ptype bx bv bz br (midPt a b)).1 = true)) := by
  by_cases hD : ptype = "Delta"
  · simp only [segment_ok, point_check, hD, if_true, Bool.and_eq_true, ne_eq,
      not_true_eq_false, false_implies, and_true]
    constructor
    · rintro ⟨⟨ha, hb⟩, _⟩
      exact ⟨ha, hb⟩
    · rintro ⟨ha, hb⟩
      exact ⟨⟨ha, hb⟩, in_bounds_delta_mid br bz a b ha hb⟩
  · simp only [segment_ok, point_check, hD, if_false, Bool.and_eq_true, ne_eq,
      not_false_eq_true, true_implies]
    constructor
    · rintro ⟨ha, hb⟩
      exact ⟨ha, hb, in_bounds_cart_mid bx bv bz a b ha hb⟩
    · rintro ⟨ha, hb, _⟩
      exact ⟨ha, hb⟩

/-- C2: for both reachability models the validity flag is exactly the
conjunction of the model's constraints (cartesian: the six half-spaces;
cylindrical: `sqrt (x^2+y^2) ≤ radius` and `0 ≤ z ≤ bz`), and the reason
list carries exactly one code per violated constraint, with every
simultaneous violation reported. -/
theorem c2_point_validation (x yv z bx bv bz radius : ℚ) :
    ((in_bounds_cart x yv z bx bv bz).1 = true ↔
        (0 ≤ x ∧ x ≤ bx ∧ 0 ≤ yv ∧ yv ≤ bv ∧ 0 ≤ z ∧ z ≤ bz)) ∧
    ((in_bounds_delta x yv z radius bz).1 = true ↔
        (Real.sqrt ((x : ℝ) ^ 2 + (yv : ℝ) ^ 2) ≤ (radius : ℝ) ∧ 0 ≤ z ∧ z ≤ bz)) ∧
    (in_bounds_cart x yv z bx bv bz).2.count "X<0" = (if x < 0 then 1 else 0) ∧
    (in_bounds_cart x yv z bx bv bz).2.count "Y<0" = (if yv < 0 then 1 else 0) ∧
    (in_bounds_cart x yv z bx bv bz).2.count "Z<0" = (if z < 0 then 1 else 0) ∧
    (in_bounds_cart x yv z bx bv bz).2.count "X>BedX" = (if bx < x then 1 else 0) ∧
    (in_bounds_cart x yv z bx bv bz).2.count "Y>BedY" = (if bv < yv then 1 else 0) ∧
    (in_bounds_cart x yv z bx bv bz).2.count "Z>BedZ" = (if bz < z then 1 else 0) ∧
    (in_bounds_cart x yv z bx bv bz).2.length =
      ((if x < 0 then 1 else 0) + (if yv < 0 then 1 else 0) + (if z < 0 then 1 else 0) +
       (if bx < x then 1 else 0) + (if bv < yv then 1 else 0) + (if bz < z then 1 else 0)) ∧
    (in_bounds_delta x yv z radius bz).2.count "r>BedRadius" =
      (if radius < 0 ∨ radius * radius < x * x + yv * yv then 1 else 0) ∧
    (in_bounds_delta x yv z radius bz).2.count "Z<0" = (if z < 0 then 1 else 0) ∧
    (in_bounds_delta x yv z radius bz).2.count "Z>BedZ" = (if bz < z then 1 else 0) ∧
    (in_bounds_delta x yv z radius bz).2.length =
      ((if radius < 0 ∨ radius * radius < x * x + yv * yv then 1 else 0) +
       (if z < 0 then 1 else 0) + (if bz < z then 1 else 0)) := by
  refine ⟨in_bounds_cart_fst_iff x yv z bx bv bz,
    in_bounds_delta_fst_iff x yv z radius bz, ?_, ?_, ?_, ?_, ?_, ?_, ?_, ?_, ?_, ?_, ?_⟩ <;>
    simp [in_bounds_cart, in_bounds_delta, sqrtGtB, List.count_append,
      List.length_append, count_ite_sing, length_ite_sing, gt_iff_lt, Nat.add_assoc]

/-- A bed outline, the `Bed` output of the source (`rg.Rectangle3d` /
`rg.Circle` converted to a curve, or a user-supplied curve passed through
the profile's `BedShape` entry, abstracted by its defining data). -/
inductive BedShape where
  | rect (xSize ySize : ℚ)
  | circle (radius : ℚ)
  | user (tag : String)
  deriving DecidableEq, Repr

/-- The legacy dict-format profile (source lines 81-98): every entry is
optional, a missing key makes `profile.get` fall back to the default. -/
structure ProfileDict where
  mode : Option String
  printerType : Option String
  params : Option (List (String × ℚ))
  bedShape : Option BedShape
  bedX : Option ℚ
  bedY : Option ℚ
  bedZ : Option ℚ
  bedRadius : Option ℚ
  deriving Repr

/-- The configuration state of `generate_gcode` after lines 72-98: mode,
printer type, bed bounds, parameter mapping and the bed outline. -/
structure Config where
  mode : String
  printer_type : String
  bedX : ℚ
  bedY : ℚ
  bedZ : ℚ
  bedRadius : ℚ
  params : List (String × ℚ)
  bed : Option BedShape
  deriving Repr

/-- `params.get(key, default)` (a Python dict lookup with default). -/
def paramsGet (ps : List (String × ℚ)) (k : String) (d : ℚ) : ℚ :=
  (ps.lookup k).getD d

/-- Source lines 72-98: defaults `mode="Pen"`, `printer_type="Cartesian"`,
bed 300x300x300, radius 150, empty params, no bed outline; a (truthy)
dict profile overrides them field by field, and the bed outline is
constructed from the bounds when the profile does not carry one.  (The
positional-list profile encoding of lines 100-114 and the falsy empty
dict are not exercised by any claim and are not modelled; dict profiles
are taken as nonempty.) -/
def resolveConfig (profile : Option ProfileDict) : Config :=
  match profile with
  | none => ⟨"Pen", "Cartesian", 300, 300, 300, 150, [], none⟩
  | some d =>
    let mode := d.mode.getD "Pen"
    let ptype := d.printerType.getD "Cartesian"
    let params := d.params.getD []
    if ptype = "Delta" then
      let br := d.bedRadius.getD 150
      let bz := d.bedZ.getD 300
      ⟨mode, ptype, 300, 300, bz, br, params, some (d.bedShape.getD (BedShape.circle br))⟩
    else
      let bx := d.bedX.getD 300
      let bv := d.bedY.getD 300
      let bz := d.bedZ.getD 300
      ⟨mode, ptype, bx, bv, bz, 150, params, some (d.bedShape.getD (BedShape.rect bx bv))⟩

/-- One emitted G-code line, one constructor per distinct line shape the
source produces (comments keep their full text; numeric fields keep their
values; `raw` stands for caller-supplied `base_code` lines). -/
inductive GLine where
  | comment (text : String)
  | g28
  | m104 (s : ℚ)
  | m140 (s : ℚ)
  | g92e0
  | g1xyz (x yv z f : ℚ)
  | g1xyze (x yv z : ℚ) (e : ℝ) (f : ℚ)
  | g1z (z f : ℚ)
  | m107
  | g28x
  | m84
  | raw (text : String)

/-- Source lines 174-183: the caller-supplied `base_code` is used when
truthy (non-`None` and nonempty), otherwise the header is synthesized:
banner comment, home, the two temperature lines in `"Hot"` mode only and
the extrusion reset. -/
def synthHeader (mode : String) (params : List (String × ℚ)) : List GLine :=
  [GLine.comment "; FOAM G-code Generator", GLine.g28] ++
  (if mode = "Hot" then
    [GLine.m104 (paramsGet params "NozzleTemp" 210),
     GLine.m140 (paramsGet params "BedTemp" 30)]
  else []) ++
  [GLine.g92e0]

def headerOf (mode : String) (params : List (String × ℚ))
    (base_code : Option (List GLine)) : List GLine :=
  match base_code with
  | some bc => if bc.isEmpty then synthHeader mode params else bc
  | none => synthHeader mode params

/-- Source lines 226-232: the footer is always appended — end comment,
hotend/bed shutdown in `"Hot"` mode only, fans off, home X, motors off. -/
def footerOf (mode : String) : List GLine :=
  [GLine.comment "; End of FOAM print"] ++
  (if mode = "Hot" then [GLine.m104 0, GLine.m140 0] else []) ++
  [GLine.m107, GLine.g28x, GLine.m84]

/-- `Point3d.DistanceTo`: the Euclidean distance between two points,
idealized over the reals. -/
noncomputable def distR (a b : Pt) : ℝ :=
  Real.sqrt (((a.x - b.x : ℚ) : ℝ) ^ 2 + ((a.y - b.y : ℚ) : ℝ) ^ 2 +
    ((a.z - b.z : ℚ) : ℝ) ^ 2)

/-- Source lines 204-221, the per-point loop after the first point: each
further point gets one `G1` move (with the updated cumulative extrusion
value in `"Hot"` mode, without an extrusion field otherwise), and after
the last point the path-end comment and the rapid lift to
`z + clearance` are emitted.  The accumulator is the cumulative
extrusion. -/
noncomputable def emitFrom (mode : String) (mult feedrate clearance : ℚ) :
    ℝ → Pt → List Pt → List GLine × ℝ
  | e, prev, [] =>
    ([GLine.comment "; End path", GLine.g1z (prev.z + clearance) 2000], e)
  | e, prev, q :: qs =>
    if mode = "Hot" then
      let e2 := e + distR prev q * (mult : ℝ)
      (GLine.g1xyze q.x q.y q.z e2 feedrate :: (emitFrom mode mult feedrate clearance e2 q qs).1,
       (emitFrom mode mult feedrate clearance e2 q qs).2)
    else
      (GLine.g1xyz q.x q.y q.z feedrate :: (emitFrom mode mult feedrate clearance e q qs).1,
       (emitFrom mode mult feedrate clearance e q qs).2)

/-- Source lines 204-210: an empty path is skipped; otherwise the
path-start comment, the rapid move above the first point
(`z + clearance`, `F2000`) and the descend to the first point at the
configured feed rate are emitted, then the rest of the path. -/
noncomputable def emitPath (mode : String) (mult feedrate clearance : ℚ)
    (e : ℝ) : List Pt → List GLine × ℝ
  | [] => ([], e)
  | p0 :: rest =>
    let tail := emitFrom mode mult feedrate clearance e p0 rest
    ([GLine.comment "; Start path",
      GLine.g1xyz p0.x p0.y (p0.z + clearance) 2000,
      GLine.g1xyz p0.x p0.y p0.z feedrate] ++ tail.1, tail.2)

/-- Source lines 188-221, the motion kernel: paths are processed in input
order, threading the cumulative extrusion (initialized to 0 once for the
whole run, never reset between paths). -/
noncomputable def motionBody (mode : String) (mult feedrate clearance : ℚ) :
    ℝ → List (List Pt) → List GLine × ℝ
  | e, [] => ([], e)
  | e, pl :: rest =>
    let first := emitPath mode mult feedrate clearance e pl
    let more := motionBody mode mult feedrate clearance first.2 rest
    (first.1 ++ more.1, more.2)

/-- The violating points of a run, in traversal order (source lines
126-142): every point of every path is checked; empty paths contribute
nothing. -/
def badPointsOf (cfg : Config) (paths : List (List Pt)) : List Pt :=
  paths.flatten.filter
    (fun p => !(point_check cfg.printer_type cfg.bedX cfg.bedY cfg.bedZ cfg.bedRadius p).1)

/-- The violating segments of a run, in traversal order (source lines
144-159): every consecutive pair within a path is tested with
`segment_ok`. -/
def badSegsOf (cfg : Config) (paths : List (List Pt)) : List (Pt × Pt) :=
  (paths.map (fun c => c.zip c.tail)).flatten.filter
    (fun ab => !segment_ok cfg.printer_type cfg.bedX cfg.bedY cfg.bedZ cfg.bedRadius ab.1 ab.2)

/-- The status string of source lines 121 and 161-162. -/
def statusOf (violations : ℕ) : String :=
  if violations > 0 then "⚠ Out of bounds: " ++ toString violations ++ " point(s)"
  else "OK"

/-- The result bundle returned at source line 234 (the `Bed` output lives
in `Config.bed`; the `WarnDots` text is the reason list joined with
`", "`). -/
structure Output where
  gcode : List GLine
  preview : List (List Pt)
  status : String
  badPts : List Pt
  badSegs : List (Pt × Pt)
  warnDots : List (String × Pt)

/-- The body of `generate_gcode` for a geometry that is a real list
(source lines 118-234): safety checks accumulate the diagnostics, the
header is the override or the synthesized one, the motion kernel emits
the moves, the footer is always appended. -/
noncomputable def genCore (paths : List (List Pt)) (profile : Option ProfileDict)
    (base_code : Option (List GLine)) : Output :=
  let cfg := resolveConfig profile
  let bad := badPointsOf cfg paths
  let clearance := paramsGet cfg.params "ClearanceHeight" 5
  let feedrate := paramsGet cfg.params "FeedRate" 1500
  let mult := paramsGet cfg.params "ExtrusionMultiplier" (1 / 5)
  let body := motionBody cfg.mode mult feedrate clearance 0 paths
  ⟨headerOf cfg.mode cfg.params base_code ++ body.1 ++ footerOf cfg.mode,
   paths.filter (fun c => !c.isEmpty),
   statusOf bad.length,
   bad,
   badSegsOf cfg paths,
   bad.map (fun p =>
     (String.intercalate ", "
       (point_check cfg.printer_type cfg.bedX cfg.bedY cfg.bedZ cfg.bedRadius p).2, p))⟩

/-- `generate_gcode(geometry, profile, base_code)` (source line 64).  The
geometry argument may be `None`: the validation pass is guarded by
`if geometry:` (line 126), but the motion kernel's `for pl in geometry:`
(line 192) iterates it unconditionally, so a `None` geometry raises a
`TypeError` before anything is returned (Python discards the partial
state of the run); any actual list succeeds. -/
noncomputable def generate_gcode (geometry : Option (List (List Pt)))
    (profile : Option ProfileDict) (base_code : Option (List GLine)) :
    Except String Output :=
  match geometry with
  | none => Except.error "TypeError: NoneType object is not iterable"
  | some paths => Except.ok (genCore paths profile base_code)

/-- The profile argument as the Grasshopper wrapper receives it: an
encoded string, an actual profile value, or `None`. -/
inductive ProfileArg where
  | ofStr (s : String)
  | ofDict (d : ProfileDict)
  | noneArg

/-- Source lines 66-70: a string profile is decoded with
`ast.literal_eval`; if decoding raises, the profile becomes `None`.  The
decoder itself is Python library code, so it is a parameter here: a
failed decode is exactly `decode s = none`. -/
def resolveProfileArg (decode : String → Option ProfileDict) :
    ProfileArg → Option ProfileDict
  | ProfileArg.ofStr s => decode s
  | ProfileArg.ofDict d => some d
  | ProfileArg.noneArg => none

/-- `generate_gcode` including the string-profile handling of lines
66-70. -/
noncomputable def generate_gcode_top (decode : String → Option ProfileDict)
    (geometry : Option (List (List Pt))) (parg : ProfileArg)
    (base_code : Option (List GLine)) : Except String Output :=
  generate_gcode geometry (resolveProfileArg decode parg) base_code

/-- The extrusion (`E`) values carried by the instruction stream, in
order. -/
def eFields (ls : List GLine) : List ℝ :=
  ls.filterMap fun l => match l with
    | GLine.g1xyze _ _ _ e _ => some e
    | _ => none

/-- The feed-rate (`F`) values carried by the instruction stream, in
order. -/
def feedFields (ls : List GLine) : List ℚ :=
  ls.filterMap fun l => match l with
    | GLine.g1xyz _ _ _ f => some f
    | GLine.g1xyze _ _ _ _ f => some f
    | GLine.g1z _ f => some f
    | _ => none

/-- The `(X, Y, Z)` targets of the full positioning moves, in order. -/
def moveTargets (ls : List GLine) : List (ℚ × ℚ × ℚ) :=
  ls.filterMap fun l => match l with
    | GLine.g1xyz x yv z _ => some (x, yv, z)
    | GLine.g1xyze x yv z _ _ => some (x, yv, z)
    | _ => none

/-- Whether a line is a positioning move carrying an extrusion field. -/
def isExtrudingMove : GLine → Bool
  | GLine.g1xyze _ _ _ _ _ => true
  | _ => false

/-- The consecutive point-to-point Euclidean distances along one path. -/
noncomputable def segDists : List Pt → List ℝ
  | [] => []
  | [_] => []
  | a :: b :: r => distR a b :: segDists (b :: r)

/-- All consecutive distances of a run, path after path in input order. -/
noncomputable def allDists (paths : List (List Pt)) : List ℝ :=
  (paths.map segDists).flatten

/-- Running sums: `cumSumsFrom a [d1, d2, ...] = [a+d1, a+d1+d2, ...]`. -/
noncomputable def cumSumsFrom : ℝ → List ℝ → List ℝ
  | _, [] => []
  | a, d :: r => (a + d) :: cumSumsFrom (a + d) r

/-- The expected move-target sequence of one path: rapid above the first
point, descend to it, then every further point, in input order. -/
def expectedTargets (clearance : ℚ) : List Pt → List (ℚ × ℚ × ℚ)
  | [] => []
  | p0 :: rest =>
    (p0.x, p0.y, p0.z + clearance) :: (p0.x, p0.y, p0.z) ::
      rest.map (fun p => (p.x, p.y, p.z))

theorem paramsGet_of_lookup_none (ps : List (String × ℚ)) (k : String) (d : ℚ)
    (h : ps.lookup k = none) : paramsGet ps k d = d := by
  simp [paramsGet, h]

theorem distR_nonneg (a b : Pt) : 0 ≤ distR a b := Real.sqrt_nonneg _

theorem segDists_nonneg (pl : List Pt) : ∀ d ∈ segDists pl, 0 ≤ d := by
  induction pl with
  | nil => intro d hd; simp [segDists] at hd
  | cons a r ih =>
    cases r with
    | nil => intro d hd; simp [segDists] at hd
    | cons b s =>
      intro d hd
      simp only [segDists, List.mem_cons] at hd
      rcases hd with h | h
      · exact h ▸ distR_nonneg a b
      · exact ih d (by simpa [segDists] using h)

theorem allDists_nonneg (paths : List (List Pt)) : ∀ d ∈ allDists paths, 0 ≤ d := by
  intro d hd
  simp only [allDists, List.mem_flatten, List.mem_map] at hd
  obtain ⟨l, ⟨pl, _, rfl⟩, hdl⟩ := hd
  exact segDists_nonneg pl d hdl

theorem cumSumsFrom_map_mul (m : ℝ) (a : ℝ) (ds : List ℝ) :
    cumSumsFrom (a * m) (ds.map (· * m)) = (cumSumsFrom a ds).map (· * m) := by
  induction ds generalizing a with
  | nil => rfl
  | cons d r ih =>
    simp only [List.map_cons, cumSumsFrom, List.map]
    rw [← ih (a + d), add_mul]

theorem cumSumsFrom_head_le (a : ℝ) (ds : List ℝ) (h : ∀ d ∈ ds, 0 ≤ d) :
    ∀ v ∈ (cumSumsFrom a ds).head?, a ≤ v := by
  cases ds with
  | nil => intro v hv; simp [cumSumsFrom] at hv
  | cons d r =>
    intro v hv
    simp only [cumSumsFrom, List.head?] at hv
    have hd : 0 ≤ d := h d (List.mem_cons_self d r)
    cases hv
    linarith

theorem cumSumsFrom_chain (a : ℝ) (ds : List ℝ) (h : ∀ d ∈ ds, 0 ≤ d) :
    List.Chain' (· ≤ ·) (cumSumsFrom a ds) := by
  induction ds generalizing a with
  | nil => exact List.chain'_nil
  | cons d r ih =>
    have hr : ∀ x ∈ r, (0:ℝ) ≤ x := fun x hx => h x (List.mem_cons_of_mem d hx)
    refine List.chain'_cons'.mpr ⟨?_, ih (a + d) hr⟩
    exact cumSumsFrom_head_le (a + d) r hr

theorem cumSumsFrom_append (e : ℝ) (l1 l2 : List ℝ) :
    cumSumsFrom e (l1 ++ l2) =
      cumSumsFrom e l1 ++ cumSumsFrom (l1.foldl (· + ·) e) l2 := by
  induction l1 generalizing e with
  | nil => rfl
  | cons d r ih => simp [cumSumsFrom, List.foldl_cons, ih]

/-- The extrusion multiplier in effect for a run (default 0.20,
source line 214). -/
def multOf (profile : Option ProfileDict) : ℚ :=
  paramsGet (resolveConfig profile).params "ExtrusionMultiplier" (1 / 5)

/-- The feed rate in effect for a run (default 1500, source line 190). -/
def feedrateOf (profile : Option ProfileDict) : ℚ :=
  paramsGet (resolveConfig profile).params "FeedRate" 1500

/-- The clearance height in effect for a run (default 5, source
line 189). -/
def clearanceOf (profile : Option ProfileDict) : ℚ :=
  paramsGet (resolveConfig profile).params "ClearanceHeight" 5

/-- The gcode stream of a run is header, then motion body, then footer
(projection of `genCore`). -/
theorem genCore_gcode (paths : List (List Pt)) (profile : Option ProfileDict)
    (base_code : Option (List GLine)) :
    (genCore paths profile base_code).gcode =
      headerOf (resolveConfig profile).mode (resolveConfig profile).params base_code ++
      (motionBody (resolveConfig profile).mode (multOf profile) (feedrateOf profile)
          (clearanceOf profile) 0 paths).1 ++
      footerOf (resolveConfig profile).mode := rfl

theorem headerOf_none (mode : String) (ps : List (String × ℚ)) :
    headerOf mode ps none = synthHeader mode ps := rfl

theorem genCore_status (paths : List (List Pt)) (profile : Option ProfileDict)
    (base_code : Option (List GLine)) :
    (genCore paths profile base_code).status =
      statusOf (badPointsOf (resolveConfig profile) paths).length := rfl

theorem eFields_append (a b : List GLine) :
    eFields (a ++ b) = eFields a ++ eFields b := by
  simp [eFields, List.filterMap_append]

theorem moveTargets_append (a b : List GLine) :
    moveTargets (a ++ b) = moveTargets a ++ moveTargets b := by
  simp [moveTargets, List.filterMap_append]

theorem eFields_synthHeader (mode : String) (ps : List (String × ℚ)) :
    eFields (synthHeader mode ps) = [] := by
  unfold synthHeader
  split_ifs <;> rfl

theorem eFields_footerOf (mode : String) : eFields (footerOf mode) = [] := by
  unfold footerOf
  split_ifs <;> rfl

theorem moveTargets_synthHeader (mode : String) (ps : List (String × ℚ)) :
    moveTargets (synthHeader mode ps) = [] := by
  unfold synthHeader
  split_ifs <;> rfl

theorem moveTargets_footerOf (mode : String) : moveTargets (footerOf mode) = [] := by
  unfold footerOf
  split_ifs <;> rfl

theorem emitFrom_hot (mult feedrate clearance : ℚ) (e : ℝ) (prev : Pt)
    (rest : List Pt) :
    eFields (emitFrom "Hot" mult feedrate clearance e prev rest).1 =
      cumSumsFrom e ((segDists (prev :: rest)).map (· * (mult : ℝ))) ∧
    (emitFrom "Hot" mult feedrate clearance e prev rest).2 =
      ((segDists (prev :: rest)).map (· * (mult : ℝ))).foldl (· + ·) e := by
  induction rest generalizing e prev with
  | nil => exact ⟨rfl, rfl⟩
  | cons q qs ih =>
    obtain ⟨ih1, ih2⟩ := ih (e + distR prev q * (mult : ℝ)) q
    constructor
    · simp [emitFrom, eFields, segDists, cumSumsFrom, List.filterMap_cons] at ih1 ⊢
      exact ih1
    · simp [emitFrom, segDists, List.foldl_cons] at ih2 ⊢
      exact ih2

theorem emitPath_hot (mult feedrate clearance : ℚ) (e : ℝ) (pl : List Pt) :
    eFields (emitPath "Hot" mult feedrate clearance e pl).1 =
      cumSumsFrom e ((segDists pl).map (· * (mult : ℝ))) ∧
    (emitPath "Hot" mult feedrate clearance e pl).2 =
      ((segDists pl).map (· * (mult : ℝ))).foldl (· + ·) e := by
  cases pl with
  | nil => exact ⟨rfl, rfl⟩
  | cons p0 rest =>
    obtain ⟨h1, h2⟩ := emitFrom_hot mult feedrate clearance e p0 rest
    constructor
    · simpa [emitPath, eFields_append, eFields, List.filterMap_cons] using h1
    · simpa [emitPath] using h2

theorem motionBody_hot (mult feedrate clearance : ℚ) (e : ℝ)
    (paths : List (List Pt)) :
    eFields (motionBody "Hot" mult feedrate clearance e paths).1 =
      cumSumsFrom e ((allDists paths).map (· * (mult : ℝ))) ∧
    (motionBody "Hot" mult feedrate clearance e paths).2 =
      ((allDists paths).map (· * (mult : ℝ))).foldl (· + ·) e := by
  induction paths generalizing e with
  | nil => exact ⟨rfl, rfl⟩
  | cons pl rest ih =>
    obtain ⟨p1, p2⟩ := emitPath_hot mult feedrate clearance e pl
    obtain ⟨r1, r2⟩ := ih (emitPath "Hot" mult feedrate clearance e pl).2
    have hall : allDists (pl :: rest) = segDists pl ++ allDists rest := by
      simp [allDists]
    constructor
    · rw [show (motionBody "Hot" mult feedrate clearance e (pl :: rest)).1 =
          (emitPath "Hot" mult feedrate clearance e pl).1 ++
          (motionBody "Hot" mult feedrate clearance
            (emitPath "Hot" mult feedrate clearance e pl).2 rest).1 from rfl,
        eFields_append, p1, r1, p2, hall, List.map_append, cumSumsFrom_append]
    · rw [show (motionBody "Hot" mult feedrate clearance e (pl :: rest)).2 =
          (motionBody "Hot" mult feedrate clearance
            (emitPath "Hot" mult feedrate clearance e pl).2 rest).2 from rfl,
        r2, p2, hall, List.map_append, List.foldl_append]

theorem eFields_cons (l : GLine) (ls : List GLine) :
    eFields (l :: ls) = (match l with
      | GLine.g1xyze _ _ _ e _ => [e]
      | _ => []) ++ eFields ls := by
  cases l <;> rfl

theorem moveTargets_cons (l : GLine) (ls : List GLine) :
    moveTargets (l :: ls) = (match l with
      | GLine.g1xyz x yv z _ => [(x, yv, z)]
      | GLine.g1xyze x yv z _ _ => [(x, yv, z)]
      | _ => []) ++ moveTargets ls := by
  cases l <;> rfl

theorem emitFrom_moveTargets (mode : String) (mult feedrate clearance : ℚ)
    (e : ℝ) (prev : Pt) (rest : List Pt) :
    moveTargets (emitFrom mode mult feedrate clearance e prev rest).1 =
      rest.map (fun p => (p.x, p.y, p.z)) := by
  induction rest generalizing e prev with
  | nil => rfl
  | cons q qs ih =>
    by_cases h : mode = "Hot"
    · subst h
      simp [emitFrom, moveTargets_cons, ih]
    · simp [emitFrom, h, moveTargets_cons, ih]

theorem emitPath_moveTargets (mode : String) (mult feedrate clearance : ℚ)
    (e : ℝ) (pl : List Pt) :
    moveTargets (emitPath mode mult feedrate clearance e pl).1 =
      expectedTargets clearance pl := by
  cases pl with
  | nil => rfl
  | cons p0 rest =>
    simp [emitPath, moveTargets_cons, expectedTargets, emitFrom_moveTargets]

theorem motionBody_moveTargets (mode : String) (mult feedrate clearance : ℚ)
    (e : ℝ) (paths : List (List Pt)) :
    moveTargets (motionBody mode mult feedrate clearance e paths).1 =
      (paths.map (expectedTargets clearance)).flatten := by
  induction paths generalizing e with
  | nil => rfl
  | cons pl rest ih =>
    rw [show (motionBody mode mult feedrate clearance e (pl :: rest)).1 =
        (emitPath mode mult feedrate clearance e pl).1 ++
        (motionBody mode mult feedrate clearance
          (emitPath mode mult feedrate clearance e pl).2 rest).1 from rfl,
      moveTargets_append, emitPath_moveTargets, ih]
    simp

theorem not_extruding_of_eFields_nil (ls : List GLine) (h : eFields ls = []) :
    ∀ l ∈ ls, isExtrudingMove l = false := by
  intro l hl
  cases l <;> try rfl
  case g1xyze x yv z e f =>
    exfalso
    have hmem : e ∈ eFields ls := by
      rw [eFields, List.mem_filterMap]
      exact ⟨GLine.g1xyze x yv z e f, hl, rfl⟩
    rw [h] at hmem
    exact absurd hmem (List.not_mem_nil _)

theorem emitFrom_eFields_nil (mode : String) (hm : mode ≠ "Hot")
    (mult feedrate clearance : ℚ) (e : ℝ) (prev : Pt) (rest : List Pt) :
    eFields (emitFrom mode mult feedrate clearance e prev rest).1 = [] := by
  induction rest generalizing e prev with
  | nil => rfl
  | cons q qs ih =>
    simp [emitFrom, hm, eFields_cons, ih]

theorem emitPath_eFields_nil (mode : String) (hm : mode ≠ "Hot")
    (mult feedrate clearance : ℚ) (e : ℝ) (pl : List Pt) :
    eFields (emitPath mode mult feedrate clearance e pl).1 = [] := by
  cases pl with
  | nil => rfl
  | cons p0 rest =>
    simp [emitPath, eFields_cons, emitFrom_eFields_nil mode hm]

theorem motionBody_eFields_nil (mode : String) (hm : mode ≠ "Hot")
    (mult feedrate clearance : ℚ) (e : ℝ) (paths : List (List Pt)) :
    eFields (motionBody mode mult feedrate clearance e paths).1 = [] := by
  induction paths generalizing e with
  | nil => rfl
  | cons pl rest ih =>
    rw [show (motionBody mode mult feedrate clearance e (pl :: rest)).1 =
        (emitPath mode mult feedrate clearance e pl).1 ++
        (motionBody mode mult feedrate clearance
          (emitPath mode mult feedrate clearance e pl).2 rest).1 from rfl,
      eFields_append, emitPath_eFields_nil mode hm, ih]
    rfl

/-- The Scenario C profile: `"Hot"` mode, extrusion multiplier 0.2. -/
def hotProfileC : ProfileDict :=
  ⟨some "Hot", none, some [("ExtrusionMultiplier", 1 / 5)], none, none, none, none, none⟩

/-- A `"Clay"` (paste) profile with an empty parameter mapping. -/
def clayProfileEmpty : ProfileDict :=
  ⟨some "Clay", none, some [], none, none, none, none, none⟩

/-- A `"Pen"` (motion-only) profile with an empty parameter mapping. -/
def penProfileEmpty : ProfileDict :=
  ⟨some "Pen", none, some [], none, none, none, none, none⟩

theorem eFields_genCore_hot (paths : List (List Pt)) (profile : Option ProfileDict)
    (hmode : (resolveConfig profile).mode = "Hot") :
    eFields (genCore paths profile none).gcode =
      cumSumsFrom 0 ((allDists paths).map (· * ((multOf profile : ℚ) : ℝ))) := by
  rw [genCore_gcode, eFields_append, eFields_append, headerOf_none,
    eFields_synthHeader, eFields_footerOf, hmode,
    (motionBody_hot (multOf profile) (feedrateOf profile) (clearanceOf profile) 0 paths).1]
  simp

/-- Scenario C distance: from `(0,0,0)` to `(10,0,0)` is 10. -/
theorem distR_scenC : distR ⟨0, 0, 0⟩ ⟨10, 0, 0⟩ = 10 := by
  have h : distR ⟨0, 0, 0⟩ ⟨10, 0, 0⟩ = Real.sqrt 100 := by
    unfold distR
    norm_num
  rw [h, show (100 : ℝ) = 10 ^ 2 by norm_num,
    Real.sqrt_sq (by norm_num : (0 : ℝ) ≤ 10)]

/-- C3: in `"Hot"` (Thermoplastic) mode the extrusion values attached to
the extruding instructions, in emission order across the whole run, are
exactly the running sums of the consecutive Euclidean point distances of
all paths (in input order, starting at 0 and never reset between paths)
scaled by the extrusion multiplier; with a nonnegative multiplier they
are non-decreasing within and across paths; and in the concrete
Scenario C (two points `(0,0,0) → (10,0,0)`, multiplier `0.2`) the
single extruding instruction carries the extrusion value `2`
(printed as `2.0000`). -/
theorem c3_extrusion_cumulative (paths : List (List Pt)) (d : ProfileDict)
    (hmode : (resolveConfig (some d)).mode = "Hot")
    (hm : 0 ≤ multOf (some d)) :
    eFields (genCore paths (some d) none).gcode =
      (cumSumsFrom 0 (allDists paths)).map (· * ((multOf (some d) : ℚ) : ℝ)) ∧
    List.Chain' (· ≤ ·) (eFields (genCore paths (some d) none).gcode) ∧
    eFields (genCore [[⟨0, 0, 0⟩, ⟨10, 0, 0⟩]] (some hotProfileC) none).gcode = [2] := by
  have h1 := eFields_genCore_hot paths (some d) hmode
  have h2 : cumSumsFrom 0 ((allDists paths).map (· * ((multOf (some d) : ℚ) : ℝ))) =
      (cumSumsFrom 0 (allDists paths)).map (· * ((multOf (some d) : ℚ) : ℝ)) := by
    have := cumSumsFrom_map_mul ((multOf (some d) : ℚ) : ℝ) 0 (allDists paths)
    simpa using this
  refine ⟨h1.trans h2, ?_, ?_⟩
  · rw [h1]
    apply cumSumsFrom_chain
    intro dd hdd
    rcases List.mem_map.mp hdd with ⟨d0, hd0, rfl⟩
    have hd0n : 0 ≤ d0 := allDists_nonneg paths d0 hd0
    have hmn : (0 : ℝ) ≤ ((multOf (some d) : ℚ) : ℝ) := by exact_mod_cast hm
    exact mul_nonneg hd0n hmn
  · have hsc := eFields_genCore_hot [[⟨0, 0, 0⟩, ⟨10, 0, 0⟩]] (some hotProfileC) rfl
    rw [hsc]
    have hmc : multOf (some hotProfileC) = 1 / 5 := rfl
    rw [hmc]
    simp only [allDists, segDists, List.map_cons, List.map_nil, List.flatten,
      List.append_nil, cumSumsFrom, distR_scenC]
    norm_num

/-- C3 witness: Scenario C instantiates the theorem (`"Hot"` mode,
multiplier `0.2 ≥ 0`). -/
theorem c3_extrusion_cumulative_witness :
    eFields (genCore [[⟨0, 0, 0⟩, ⟨10, 0, 0⟩]] (some hotProfileC) none).gcode = [2] :=
  (c3_extrusion_cumulative [[⟨0, 0, 0⟩, ⟨10, 0, 0⟩]] hotProfileC rfl
    (by rw [show multOf (some hotProfileC) = 1 / 5 from rfl]; norm_num)).2.2

theorem status_summary_ne_ok (v : ℕ) :
    ("⚠ Out of bounds: " ++ toString v ++ " point(s)") ≠ "OK" := by
  intro h
  have hlen := congrArg String.length h
  rw [String.length_append, String.length_append] at hlen
  have h1 : ("⚠ Out of bounds: ").length = 17 := rfl
  have h2 : (" point(s)").length = 9 := rfl
  have h3 : ("OK").length = 2 := rfl
  rw [h1, h2, h3] at hlen
  omega

theorem statusOf_eq_ok_iff (v : ℕ) : statusOf v = "OK" ↔ v = 0 := by
  unfold statusOf
  split_ifs with h
  · simp only [iff_false_intro (by omega : ¬v = 0)]
    simp [status_summary_ne_ok v]
  · simp
    omega

/-- C4: the status string of a run is `"OK"` exactly when the number of
point violations is zero, and is always determined by that count alone —
`statusOf` is a function of the point-violation count and never consults
the segment-violation list, so a run's segment violations cannot change
the status (indeed, by convexity a bad segment always has a bad endpoint,
so a run with only segment violations cannot occur at all). -/
theorem c4_status_from_point_violations (paths : List (List Pt))
    (profile : Option ProfileDict) (base_code : Option (List GLine)) :
    ((genCore paths profile base_code).status = "OK" ↔
      (badPointsOf (resolveConfig profile) paths).length = 0) ∧
    (genCore paths profile base_code).status =
      statusOf (badPointsOf (resolveConfig profile) paths).length ∧
    ((genCore paths profile base_code).status = "OK" ∨
      (genCore paths profile base_code).status =
        "⚠ Out of bounds: " ++
          toString (badPointsOf (resolveConfig profile) paths).length ++ " point(s)") := by
  refine ⟨?_, genCore_status paths profile base_code, ?_⟩
  · rw [genCore_status]
    exact statusOf_eq_ok_iff _
  · rw [genCore_status]
    unfold statusOf
    split_ifs with h
    · exact Or.inr rfl
    · exact Or.inl rfl

/-- C5 counterexample: in `"Clay"` (Paste) mode with no `FeedRate` key in
the parameter mapping, the emitted moves carry feed rate 1500 — not the
spec-claimed per-mode default of 800 — because source line 190 defaults
`FeedRate` to 1500 in every mode (the 800/1000 defaults live in the
out-of-scope profile-builder scripts, which always populate the key). -/
theorem c5_counterexample :
    (resolveConfig (some clayProfileEmpty)).mode = "Clay" ∧
    ((resolveConfig (some clayProfileEmpty)).params).lookup "FeedRate" = none ∧
    feedFields (genCore [[⟨0, 0, 0⟩, ⟨1, 0, 0⟩]] (some clayProfileEmpty) none).gcode =
      [2000, 1500, 1500, 2000] ∧
    ¬(800 : ℚ) ∈
      feedFields (genCore [[⟨0, 0, 0⟩, ⟨1, 0, 0⟩]] (some clayProfileEmpty) none).gcode := by
  refine ⟨rfl, rfl, rfl, ?_⟩
  rw [show feedFields (genCore [[⟨0, 0, 0⟩, ⟨1, 0, 0⟩]] (some clayProfileEmpty) none).gcode =
    [2000, 1500, 1500, 2000] from rfl]
  norm_num

/-- C5 (amended): when `FeedRate` is absent from the parameter mapping
the motion compiler emits the body at feed rate 1500 in every mode (not
per-mode 1500/800/1000), and when `ClearanceHeight` is absent the
clearance is 5 in every mode. -/
theorem c5_default_feed_clearance (paths : List (List Pt))
    (profile : Option ProfileDict) (base_code : Option (List GLine))
    (h1 : ((resolveConfig profile).params).lookup "FeedRate" = none)
    (h2 : ((resolveConfig profile).params).lookup "ClearanceHeight" = none) :
    (genCore paths profile base_code).gcode =
      headerOf (resolveConfig profile).mode (resolveConfig profile).params base_code ++
      (motionBody (resolveConfig profile).mode (multOf profile) 1500 5 0 paths).1 ++
      footerOf (resolveConfig profile).mode := by
  rw [genCore_gcode,
    show feedrateOf profile = 1500 from paramsGet_of_lookup_none _ _ _ h1,
    show clearanceOf profile = 5 from paramsGet_of_lookup_none _ _ _ h2]

/-- C5 witness: a `"Pen"` run with an empty parameter mapping
instantiates the amended theorem. -/
theorem c5_default_feed_clearance_witness :
    (genCore [[⟨0, 0, 0⟩]] (some penProfileEmpty) none).gcode =
      headerOf (resolveConfig (some penProfileEmpty)).mode
        (resolveConfig (some penProfileEmpty)).params none ++
      (motionBody (resolveConfig (some penProfileEmpty)).mode
        (multOf (some penProfileEmpty)) 1500 5 0 [[⟨0, 0, 0⟩]]).1 ++
      footerOf (resolveConfig (some penProfileEmpty)).mode :=
  c5_default_feed_clearance [[⟨0, 0, 0⟩]] (some penProfileEmpty) none rfl rfl

/-- C6: the `(X, Y, Z)` targets of the emitted positioning moves are, in
order, exactly the per-path expected sequences (rapid above the first
point, descend to it, then every further point) concatenated in the input
order of the paths — so instruction order matches path input order and,
within a path, point input order. -/
theorem c6_instruction_ordering (paths : List (List Pt))
    (profile : Option ProfileDict) :
    moveTargets (genCore paths profile none).gcode =
      (paths.map (expectedTargets (clearanceOf profile))).flatten := by
  rw [genCore_gcode, moveTargets_append, moveTargets_append, headerOf_none,
    moveTargets_synthHeader, moveTargets_footerOf, motionBody_moveTargets]
  simp

/-- C7: when a nonempty override header program is supplied it opens the
instruction stream verbatim (in place of the synthesized header), and the
synthesized footer is still appended at the end. -/
theorem c7_header_override (paths : List (List Pt)) (profile : Option ProfileDict)
    (bc : List GLine) (hbc : bc ≠ []) :
    bc <+: (genCore paths profile (some bc)).gcode ∧
    footerOf (resolveConfig profile).mode <:+ (genCore paths profile (some bc)).gcode := by
  have hh : headerOf (resolveConfig profile).mode (resolveConfig profile).params
      (some bc) = bc := by
    simp [headerOf, List.isEmpty_iff, hbc]
  rw [genCore_gcode, hh]
  exact ⟨⟨_, (List.append_assoc bc _ _).symm⟩, ⟨_, rfl⟩⟩

/-- C7 witness: a one-line override header on an empty geometry run. -/
theorem c7_header_override_witness :
    [GLine.raw "custom header"] <+:
      (genCore [] none (some [GLine.raw "custom header"])).gcode ∧
    footerOf (resolveConfig none).mode <:+
      (genCore [] none (some [GLine.raw "custom header"])).gcode :=
  c7_header_override [] none [GLine.raw "custom header"] (by simp)

/-- C8: a string-encoded configuration whose decode fails is treated as
no configuration at all: the run proceeds normally (returns `ok`, never
an error) with the full defaults — `"Pen"` (Motion-Only) mode,
`"Cartesian"` reachability and the stock 300x300x300 bed. -/
theorem c8_decode_failure_defaults (decode : String → Option ProfileDict)
    (s : String) (hs : decode s = none) (paths : List (List Pt))
    (base_code : Option (List GLine)) :
    generate_gcode_top decode (some paths) (ProfileArg.ofStr s) base_code =
      Except.ok (genCore paths none base_code) ∧
    resolveConfig none = ⟨"Pen", "Cartesian", 300, 300, 300, 150, [], none⟩ := by
  constructor
  · simp [generate_gcode_top, resolveProfileArg, hs, generate_gcode]
  · rfl

/-- C8 witness: a decoder that rejects everything, on an arbitrary
string. -/
theorem c8_decode_failure_defaults_witness :
    generate_gcode_top (fun _ => none) (some []) (ProfileArg.ofStr "garbage") none =
      Except.ok (genCore [] none none) ∧
    resolveConfig none = ⟨"Pen", "Cartesian", 300, 300, 300, 150, [], none⟩ :=
  c8_decode_failure_defaults (fun _ => none) "garbage" rfl [] none

/-- C9: in `"Clay"` (Paste) or `"Pen"` (Motion-Only) mode no emitted
instruction is a positioning move carrying an extrusion field (the only
`E`-carrying move shape, `G1 ... E...`, is produced exclusively in the
`"Hot"` branch of line 215; the unconditional `G92 E0` extrusion-counter
reset of line 183 is a counter reset, not an extruding move). -/
theorem c9_no_extrusion_field (paths : List (List Pt))
    (profile : Option ProfileDict)
    (hmode : (resolveConfig profile).mode = "Clay" ∨
      (resolveConfig profile).mode = "Pen") :
    ∀ l ∈ (genCore paths profile none).gcode, isExtrudingMove l = false := by
  have hne : (resolveConfig profile).mode ≠ "Hot" := by
    rcases hmode with h | h <;> rw [h] <;> decide
  intro l hl
  rw [genCore_gcode] at hl
  rcases List.mem_append.mp hl with h1 | h2
  · rcases List.mem_append.mp h1 with ha | hb
    · refine not_extruding_of_eFields_nil _ ?_ l ha
      rw [headerOf_none]
      exact eFields_synthHeader _ _
    · exact not_extruding_of_eFields_nil _
        (motionBody_eFields_nil _ hne _ _ _ _ _) l hb
  · exact not_extruding_of_eFields_nil _ (eFields_footerOf _) l h2

/-- C9 witness: the home-all line of a concrete `"Pen"` run. -/
theorem c9_no_extrusion_field_witness : isExtrudingMove GLine.g28 = false :=
  c9_no_extrusion_field [[⟨1, 2, 3⟩]] (some penProfileEmpty) (Or.inr rfl)
    GLine.g28
    (by rw [genCore_gcode, headerOf_none]; simp [synthHeader])

/-- C10: a `None` geometry raises (the validation pass of line 126 is
guarded by `if geometry:`, but the motion kernel of line 192 iterates
`geometry` unconditionally, so Python raises `TypeError` and nothing is
returned), while every actual list — including the empty one — completes
and returns the result bundle; so the core's no-failure guarantee holds
only when geometry is a (possibly empty) list. -/
theorem c10_none_geometry_raises (profile : Option ProfileDict)
    (base_code : Option (List GLine)) :
    generate_gcode none profile base_code =
      Except.error "TypeError: NoneType object is not iterable" ∧
    ∀ paths, generate_gcode (some paths) profile base_code =
      Except.ok (genCore paths profile base_code) :=
  ⟨rfl, fun _ => rfl⟩
